import Mathlib

/-!
Verification of the weathertrack backend (src/app2.py).

The repository is a Flask application with three routes and two error
handlers.  The upstream API wrappers (coordinates.py, weather2.py) are not
part of the repository source tree here; following the specification, they
are treated as black-box services and are modelled by an `Upstream` record
of oracle functions whose types follow the contracts of spec sections
4.1-4.5.  The handlers themselves are translated line by line from
src/app2.py.  Besides the returned value, each handler also returns the
list of upstream calls it performed, so that claims about which calls are
or are not made can be stated.
-/

namespace WeatherTrack

/-- JSON values, as produced by the Flask handlers via jsonify.  A Python
None entering jsonify serialises as JSON null, so Json.null also models the
Python None value where it flows into a payload. -/
inductive Json where
  | null : Json
  | str : String → Json
  | num : Int → Json
  | bool : Bool → Json
  | arr : List Json → Json
  | obj : List (String × Json) → Json
deriving Repr

/-- The keys of a JSON object, in order; none for a non-object. -/
def Json.objKeys : Json → Option (List String)
  | .obj fields => some (fields.map Prod.fst)
  | _ => none

/-- The Python test v is None, on a value parsed from JSON: true exactly
for the null value. -/
def Json.isNull : Json → Bool
  | .null => true
  | _ => false

/-- Python d.get(key) on a dict parsed from JSON: the stored value when the
key is present, otherwise None (modelled as Json.null; a stored JSON null
also reads back as None, exactly as in Python). -/
def pyDictGet (fields : List (String × Json)) (key : String) : Json :=
  match fields.find? (fun p => p.1 == key) with
  | some p => p.2
  | none => Json.null

/-- Labels for the upstream API calls, used to record which calls a request
handler performs. -/
inductive ApiCall where
  | locFromGoogle : ApiCall
  | locName : ApiCall
  | placeId : ApiCall
  | currentWeather : ApiCall
  | forecast : ApiCall
  | photoRef : ApiCall
  | photoFetch : ApiCall
deriving Repr, DecidableEq

/-- Modelled from the spec: the upstream API wrappers imported by app2.py
from coordinates.py and weather2.py, which are not in the source tree.
Types follow the contracts of spec sections 4.1-4.5:
get_location_from_google takes the API key and an optional location value
(none models the keyword argument being omitted, as in the GET handler)
and returns a coordinate pair or null; get_location_name,
get_place_id_from_coordinates and get_photo_reference return a value or
null; get_current_weather and get_five_day_forecast have no null contract
and an upstream failure is a raised error, modelled by Except;
get_photo takes a possibly-null photo reference and returns a filename or
null.  Coordinates are modelled as integers: the handlers never compute
with them, only pass them along. -/
structure Upstream where
  get_location_from_google : String → Option Json → Option (Int × Int)
  get_location_name : Int → Int → Option String
  get_place_id_from_coordinates : String → Int → Int → Option String
  get_current_weather : Int → Int → String → Except String Json
  get_five_day_forecast : Int → Int → String → Except String Json
  get_photo_reference : String → Option String → Option String
  get_photo : Option String → String → Option String

/-- The outcome of running a Flask view function: a jsonify payload
(HTTP 200), or an uncaught Python exception carrying its message. -/
inductive HandlerResult where
  | ok : Json → HandlerResult
  | exn : String → HandlerResult
deriving Repr

/-- app2.py line 53: the 500 error handler returns the JSON object with
field error set to the stringified error, with status 500. -/
def internal_server_error (e : String) : Json × Nat :=
  (Json.obj [("error", Json.str e)], 500)

/-- app2.py line 72: the 404 error handler returns the JSON object with
field error set to the stringified error, with status 404. -/
def not_found_error (e : String) : Json × Nat :=
  (Json.obj [("error", Json.str e)], 404)

/-- The Flask application around a view function: a normal jsonify return
is served with status 200, and an uncaught exception reaches the
registered 500 handler. -/
def dispatch : HandlerResult → Json × Nat
  | .ok payload => (payload, 200)
  | .exn e => internal_server_error e

/-- A Python Optional string as it enters jsonify: None becomes JSON null. -/
def optStrToJson : Option String → Json
  | none => Json.null
  | some s => Json.str s

/-- app2.py lines 92-94, the catch-all route serve(path): if path is
non-empty and the file exists under the static folder, that file is served,
otherwise index.html is served; send_from_directory answers with 200 in
both branches.  The static folder contents are modelled as the list of
paths that exist. -/
def serve (staticFiles : List String) (path : String) : String × Nat :=
  if path ≠ "" ∧ path ∈ staticFiles then (path, 200)
  else ("index.html", 200)

/-- app2.py lines 117-137, the POST /get_weather view.  The body argument
models request.get_json(): none when it yields Python None, otherwise the
parsed JSON value.  Attribute access .get on a non-dict value raises
AttributeError, which is modelled as HandlerResult.exn.  The second
component records the upstream calls in the order the source makes them. -/
def get_weather (env : Upstream) (googleKey openWeatherKey : String)
    (body : Option Json) : HandlerResult × List ApiCall :=
  match body with
  | none => (.exn "AttributeError: NoneType object has no attribute get", [])
  | some (Json.obj fields) =>
    let location := pyDictGet fields "location"
    if location.isNull then
      (.ok (Json.obj [("error", Json.str "No location provided.")]), [])
    else
      match env.get_location_from_google googleKey (some location) with
      | none =>
        (.ok (Json.obj [("error",
            Json.str "Unable to retrieve location from Google Geolocation API.")]),
         [.locFromGoogle])
      | some (latitude, longitude) =>
        let location_name := env.get_location_name latitude longitude
        let place_id := env.get_place_id_from_coordinates googleKey latitude longitude
        match env.get_current_weather latitude longitude openWeatherKey with
        | .error e =>
          (.exn e, [.locFromGoogle, .locName, .placeId, .currentWeather])
        | .ok current_weather =>
          match env.get_five_day_forecast latitude longitude openWeatherKey with
          | .error e =>
            (.exn e, [.locFromGoogle, .locName, .placeId, .currentWeather, .forecast])
          | .ok forecast =>
            let photo_reference := env.get_photo_reference googleKey place_id
            let photo_path : Json :=
              match photo_reference with
              | none => Json.null
              | some pr =>
                match env.get_photo (some pr) googleKey with
                | some _ => Json.str "images/photo.jpg"
                | none => Json.null
            (.ok (Json.obj [("current_weather", current_weather),
                            ("forecast", forecast),
                            ("photo_path", photo_path),
                            ("location", optStrToJson location_name)]),
             [.locFromGoogle, .locName, .placeId, .currentWeather, .forecast,
                .photoRef] ++
               (if photo_reference.isSome then [.photoFetch] else []))
  | some _ => (.exn "AttributeError: object has no attribute get", [])

/-- app2.py lines 159-169, the GET /weather view.  Line 159 unpacks the
result of get_location_from_google into latitude, longitude before any
null check: under the spec section 4.1 contract the wrapper returns null
on failure, and unpacking Python None raises TypeError, modelled as
HandlerResult.exn.  When resolution succeeds the unpacked components are
numbers, so the guard on line 160 holds and the success path runs. -/
def weather (env : Upstream) (googleKey openWeatherKey : String) :
    HandlerResult × List ApiCall :=
  match env.get_location_from_google googleKey none with
  | none =>
    (.exn "TypeError: cannot unpack non-iterable NoneType object",
     [.locFromGoogle])
  | some (latitude, longitude) =>
    match env.get_current_weather latitude longitude openWeatherKey with
    | .error e => (.exn e, [.locFromGoogle, .currentWeather])
    | .ok current_weather =>
      match env.get_five_day_forecast latitude longitude openWeatherKey with
      | .error e => (.exn e, [.locFromGoogle, .currentWeather, .forecast])
      | .ok forecast =>
        let place_id := env.get_place_id_from_coordinates googleKey latitude longitude
        let photo_reference := env.get_photo_reference googleKey place_id
        let photo_path := env.get_photo photo_reference googleKey
        let location_name := env.get_location_name latitude longitude
        let _ := (photo_path, location_name)
        (.ok (Json.obj [("current_weather", current_weather),
                        ("forecast", forecast)]),
         [.locFromGoogle, .currentWeather, .forecast, .placeId, .photoRef,
            .photoFetch, .locName])

/-! Concrete upstream environments used to instantiate the theorems. -/

/-- An upstream environment in which every call succeeds. -/
def envOk : Upstream where
  get_location_from_google := fun _ _ => some (1, 2)
  get_location_name := fun _ _ => some "Paris, Ile-de-France, France"
  get_place_id_from_coordinates := fun _ _ _ => some "place-1"
  get_current_weather := fun _ _ _ => .ok (Json.obj [("temp", Json.num 21)])
  get_five_day_forecast := fun _ _ _ =>
    .ok (Json.arr [Json.obj [("temp", Json.num 18)]])
  get_photo_reference := fun _ _ => some "photoref-1"
  get_photo := fun _ _ => some "photo.jpg"

/-- Like envOk but coordinate resolution fails (returns null). -/
def envLocFail : Upstream :=
  { envOk with get_location_from_google := fun _ _ => none }

/-- Like envOk but the place has no photo reference. -/
def envNoPhotoRef : Upstream :=
  { envOk with get_photo_reference := fun _ _ => none }

/-- Like envOk but the current-weather fetch raises. -/
def envWeatherRaises : Upstream :=
  { envOk with get_current_weather := fun _ _ _ => .error "ConnectionError" }

/-!  Claim theorems. -/

/-- C1: when the location resolver returns null on GET /weather, the code
does NOT return the error payload the claim states.  Line 159 of app2.py
unpacks the resolver result before any null check, so a null return raises
TypeError; the request surfaces through the 500 handler as a stringified
error with status 500, and the payload with error field
"Unable to retrieve location from Google Geolocation API." is not
produced. -/
theorem weather_resolver_null_raises_500 :
    weather envLocFail "gk" "wk" =
      (.exn "TypeError: cannot unpack non-iterable NoneType object",
       [.locFromGoogle]) ∧
    dispatch (weather envLocFail "gk" "wk").1 =
      (Json.obj [("error",
        Json.str "TypeError: cannot unpack non-iterable NoneType object")],
       500) ∧
    (weather envLocFail "gk" "wk").1 ≠
      .ok (Json.obj [("error",
        Json.str "Unable to retrieve location from Google Geolocation API.")]) := by
  refine ⟨rfl, rfl, ?_⟩
  simp [weather, envLocFail, envOk]

/-- C3: a POST /get_weather body that is a JSON object without a location
key yields exactly the payload with error field "No location provided.",
served with status 200, and no upstream call is made (the recorded call
list is empty). -/
theorem get_weather_no_location (env : Upstream) (gk wk : String)
    (fields : List (String × Json))
    (h : fields.find? (fun p => p.1 == "location") = none) :
    get_weather env gk wk (some (Json.obj fields)) =
      (.ok (Json.obj [("error", Json.str "No location provided.")]), []) ∧
    dispatch (get_weather env gk wk (some (Json.obj fields))).1 =
      (Json.obj [("error", Json.str "No location provided.")], 200) := by
  have hget : pyDictGet fields "location" = Json.null := by
    simp [pyDictGet, h]
  constructor <;> simp [get_weather, hget, dispatch, Json.isNull]

/-- C3 witness: the empty body object. -/
theorem get_weather_no_location_w :
    get_weather envOk "gk" "wk" (some (Json.obj [])) =
      (.ok (Json.obj [("error", Json.str "No location provided.")]), []) ∧
    dispatch (get_weather envOk "gk" "wk" (some (Json.obj []))).1 =
      (Json.obj [("error", Json.str "No location provided.")], 200) :=
  get_weather_no_location envOk "gk" "wk" [] rfl

/-- C5: when coordinate resolution fails for a provided location, the POST
handler returns the error payload and makes no downstream call: the
recorded call list is exactly the one resolver call. -/
theorem get_weather_resolver_fails (env : Upstream) (gk wk : String)
    (fields : List (String × Json)) (loc : Json)
    (hget : pyDictGet fields "location" = loc)
    (hloc : loc.isNull = false)
    (hres : env.get_location_from_google gk (some loc) = none) :
    get_weather env gk wk (some (Json.obj fields)) =
      (.ok (Json.obj [("error",
         Json.str "Unable to retrieve location from Google Geolocation API.")]),
       [.locFromGoogle]) := by
  simp [get_weather, hget, hloc, hres]

/-- C5 witness: resolver failure on the body with location Paris. -/
theorem get_weather_resolver_fails_w :
    get_weather envLocFail "gk" "wk"
        (some (Json.obj [("location", Json.str "Paris")])) =
      (.ok (Json.obj [("error",
         Json.str "Unable to retrieve location from Google Geolocation API.")]),
       [.locFromGoogle]) :=
  get_weather_resolver_fails envLocFail "gk" "wk"
    [("location", Json.str "Paris")] (Json.str "Paris") rfl rfl rfl

/-- C7: the catch-all route serves index.html with status 200 for a
non-empty path that names no existing static file, and serves the file
itself for a path that does name one. -/
theorem serve_spa_fallback (files : List String) (path : String) :
    (path ≠ "" → path ∉ files → serve files path = ("index.html", 200)) ∧
    (path ≠ "" → path ∈ files → serve files path = (path, 200)) := by
  constructor <;> intro h1 h2 <;> simp [serve, h1, h2]

/-- C7 witness: a missing path falls back to index.html; an existing path
is served directly. -/
theorem serve_spa_fallback_w :
    serve ["app.js"] "missing.png" = ("index.html", 200) ∧
    serve ["app.js"] "app.js" = ("app.js", 200) :=
  ⟨(serve_spa_fallback ["app.js"] "missing.png").1 (by decide) (by decide),
   (serve_spa_fallback ["app.js"] "app.js").2 (by decide) (by decide)⟩

/-- C9: when request.get_json() yields Python None (body missing,
unparsable, or the JSON value null), the attribute access data.get raises,
surfacing as HTTP 500, and the payload with error field
"No location provided." is not returned; similarly for a body that is a
JSON value other than an object.  The "No location provided." branch is
reachable only from an object body. -/
theorem get_weather_non_object_body_raises (env : Upstream) (gk wk : String)
    (xs : List Json) :
    (get_weather env gk wk none).1 =
      .exn "AttributeError: NoneType object has no attribute get" ∧
    (dispatch (get_weather env gk wk none).1).2 = 500 ∧
    (get_weather env gk wk none).1 ≠
      .ok (Json.obj [("error", Json.str "No location provided.")]) ∧
    (get_weather env gk wk (some (Json.arr xs))).1 =
      .exn "AttributeError: object has no attribute get" := by
  refine ⟨rfl, rfl, ?_, rfl⟩
  simp [get_weather]

/-- C2: on POST /get_weather with a location string, when every upstream
call succeeds (resolution yields coordinates, the name lookup yields a
string, the weather fetches return non-null data with the forecast a JSON
array, and the photo download succeeds whenever a reference was found),
the payload carries the non-null current weather, the forecast array, the
location string, and photo_path equal to images/photo.jpg when a photo
reference was found, else null. -/
theorem get_weather_success_payload (env : Upstream) (gk wk : String)
    (loc : Json) (la lo : Int) (nm : String) (w : Json) (fs : List Json)
    (hloc : loc.isNull = false)
    (hres : env.get_location_from_google gk (some loc) = some (la, lo))
    (hnm : env.get_location_name la lo = some nm)
    (hw : env.get_current_weather la lo wk = .ok w)
    (hwn : w.isNull = false)
    (hf : env.get_five_day_forecast la lo wk = .ok (Json.arr fs))
    (hp : ∀ r, env.get_photo_reference gk
            (env.get_place_id_from_coordinates gk la lo) = some r →
          (env.get_photo (some r) gk).isSome = true) :
    (get_weather env gk wk (some (Json.obj [("location", loc)]))).1 =
      .ok (Json.obj [("current_weather", w),
                     ("forecast", Json.arr fs),
                     ("photo_path",
                       if (env.get_photo_reference gk
                            (env.get_place_id_from_coordinates gk la lo)).isSome
                       then Json.str "images/photo.jpg" else Json.null),
                     ("location", Json.str nm)]) ∧
    w.isNull = false := by
  have hget : pyDictGet [("location", loc)] "location" = loc := by
    simp [pyDictGet]
  cases href : env.get_photo_reference gk
      (env.get_place_id_from_coordinates gk la lo) with
  | none =>
    refine ⟨?_, hwn⟩
    simp [get_weather, hget, hloc, hres, hw, hf, hnm, href, optStrToJson]
  | some r =>
    obtain ⟨fn, hfn⟩ := Option.isSome_iff_exists.mp (hp r href)
    refine ⟨?_, hwn⟩
    simp [get_weather, hget, hloc, hres, hw, hf, hnm, href, hfn, optStrToJson]

/-- C2 witness: the all-success environment with body location Paris. -/
theorem get_weather_success_payload_w :
    (get_weather envOk "gk" "wk"
        (some (Json.obj [("location", Json.str "Paris")]))).1 =
      .ok (Json.obj [("current_weather", Json.obj [("temp", Json.num 21)]),
                     ("forecast", Json.arr [Json.obj [("temp", Json.num 18)]]),
                     ("photo_path", Json.str "images/photo.jpg"),
                     ("location",
                       Json.str "Paris, Ile-de-France, France")]) := by
  have h := get_weather_success_payload envOk "gk" "wk" (Json.str "Paris") 1 2
    "Paris, Ile-de-France, France" (Json.obj [("temp", Json.num 21)])
    [Json.obj [("temp", Json.num 18)]]
    rfl rfl rfl rfl rfl rfl (fun r _ => rfl)
  simpa [envOk] using h.1

/-- C4: when the photo-reference lookup returns null after the weather
fetches succeeded, the POST handler raises no exception: it still returns
the payload, with photo_path null and current_weather, forecast and
location present. -/
theorem get_weather_photo_ref_null (env : Upstream) (gk wk : String)
    (loc : Json) (la lo : Int) (w f : Json)
    (hloc : loc.isNull = false)
    (hres : env.get_location_from_google gk (some loc) = some (la, lo))
    (hw : env.get_current_weather la lo wk = .ok w)
    (hf : env.get_five_day_forecast la lo wk = .ok f)
    (href : env.get_photo_reference gk
        (env.get_place_id_from_coordinates gk la lo) = none) :
    (get_weather env gk wk (some (Json.obj [("location", loc)]))).1 =
      .ok (Json.obj [("current_weather", w),
                     ("forecast", f),
                     ("photo_path", Json.null),
                     ("location",
                       optStrToJson (env.get_location_name la lo))]) := by
  have hget : pyDictGet [("location", loc)] "location" = loc := by
    simp [pyDictGet]
  simp [get_weather, hget, hloc, hres, hw, hf, href]

/-- C4 witness: the environment whose photo-reference lookup returns
null. -/
theorem get_weather_photo_ref_null_w :
    (get_weather envNoPhotoRef "gk" "wk"
        (some (Json.obj [("location", Json.str "Paris")]))).1 =
      .ok (Json.obj [("current_weather", Json.obj [("temp", Json.num 21)]),
                     ("forecast", Json.arr [Json.obj [("temp", Json.num 18)]]),
                     ("photo_path", Json.null),
                     ("location",
                       Json.str "Paris, Ile-de-France, France")]) := by
  have h := get_weather_photo_ref_null envNoPhotoRef "gk" "wk"
    (Json.str "Paris") 1 2 (Json.obj [("temp", Json.num 21)])
    (Json.arr [Json.obj [("temp", Json.num 18)]]) rfl rfl rfl rfl rfl
  simpa [envNoPhotoRef, envOk, optStrToJson] using h

/-- C6: a successful GET /weather response is exactly the object with the
keys current_weather and forecast, in that order; photo_path and location
are absent. -/
theorem weather_payload_keys (env : Upstream) (gk wk : String)
    (la lo : Int) (w f : Json)
    (hres : env.get_location_from_google gk none = some (la, lo))
    (hw : env.get_current_weather la lo wk = .ok w)
    (hf : env.get_five_day_forecast la lo wk = .ok f) :
    (weather env gk wk).1 =
      .ok (Json.obj [("current_weather", w), ("forecast", f)]) ∧
    (Json.obj [("current_weather", w), ("forecast", f)]).objKeys =
      some ["current_weather", "forecast"] := by
  refine ⟨?_, rfl⟩
  simp [weather, hres, hw, hf]

/-- C6 witness: the all-success environment. -/
theorem weather_payload_keys_w :
    (weather envOk "gk" "wk").1 =
      .ok (Json.obj [("current_weather", Json.obj [("temp", Json.num 21)]),
                     ("forecast",
                       Json.arr [Json.obj [("temp", Json.num 18)]])]) :=
  (weather_payload_keys envOk "gk" "wk" 1 2
    (Json.obj [("temp", Json.num 21)])
    (Json.arr [Json.obj [("temp", Json.num 18)]]) rfl rfl rfl).1

/-- C8: a raising weather fetch is not caught in the POST handler: the
exception propagates, and the 500 handler turns it into the object with
field error set to the stringified error and status 500; the 404 handler
likewise produces the error object with status 404. -/
theorem get_weather_fetch_raises (env : Upstream) (gk wk : String)
    (fields : List (String × Json)) (loc : Json) (la lo : Int) (e : String)
    (hget : pyDictGet fields "location" = loc)
    (hloc : loc.isNull = false)
    (hres : env.get_location_from_google gk (some loc) = some (la, lo))
    (hraise : env.get_current_weather la lo wk = .error e ∨
      ∃ w, env.get_current_weather la lo wk = .ok w ∧
           env.get_five_day_forecast la lo wk = .error e) :
    (get_weather env gk wk (some (Json.obj fields))).1 = .exn e ∧
    dispatch (.exn e) = (Json.obj [("error", Json.str e)], 500) ∧
    not_found_error e = (Json.obj [("error", Json.str e)], 404) := by
  refine ⟨?_, rfl, rfl⟩
  rcases hraise with hw | ⟨w, hw, hf⟩
  · simp [get_weather, hget, hloc, hres, hw]
  · simp [get_weather, hget, hloc, hres, hw, hf]

/-- C8 witness: the environment whose current-weather fetch raises. -/
theorem get_weather_fetch_raises_w :
    (get_weather envWeatherRaises "gk" "wk"
        (some (Json.obj [("location", Json.str "Paris")]))).1 =
      .exn "ConnectionError" ∧
    dispatch (.exn "ConnectionError") =
      (Json.obj [("error", Json.str "ConnectionError")], 500) ∧
    not_found_error "ConnectionError" =
      (Json.obj [("error", Json.str "ConnectionError")], 404) :=
  get_weather_fetch_raises envWeatherRaises "gk" "wk"
    [("location", Json.str "Paris")] (Json.str "Paris") 1 2 "ConnectionError"
    rfl rfl rfl (Or.inl rfl)

/-- C10: a successful GET /weather request still performs the place-id
lookup, the photo-reference lookup, the photo download and the
location-name lookup, in the order of the source, even though none of
their results appear in the payload.  The photo download is the get_photo
call, whose file write to images/photo.jpg is abstracted here as the
recorded photoFetch call. -/
theorem weather_side_effect_calls (env : Upstream) (gk wk : String)
    (la lo : Int) (w f : Json)
    (hres : env.get_location_from_google gk none = some (la, lo))
    (hw : env.get_current_weather la lo wk = .ok w)
    (hf : env.get_five_day_forecast la lo wk = .ok f) :
    (weather env gk wk).2 =
      [.locFromGoogle, .currentWeather, .forecast, .placeId, .photoRef,
       .photoFetch, .locName] ∧
    ApiCall.placeId ∈ (weather env gk wk).2 ∧
    ApiCall.photoRef ∈ (weather env gk wk).2 ∧
    ApiCall.photoFetch ∈ (weather env gk wk).2 ∧
    ApiCall.locName ∈ (weather env gk wk).2 := by
  have htrace : (weather env gk wk).2 =
      [.locFromGoogle, .currentWeather, .forecast, .placeId, .photoRef,
       .photoFetch, .locName] := by
    simp [weather, hres, hw, hf]
  refine ⟨htrace, ?_, ?_, ?_, ?_⟩ <;> rw [htrace] <;> simp

/-- C10 witness: the all-success environment. -/
theorem weather_side_effect_calls_w :
    (weather envOk "gk" "wk").2 =
      [.locFromGoogle, .currentWeather, .forecast, .placeId, .photoRef,
       .photoFetch, .locName] :=
  (weather_side_effect_calls envOk "gk" "wk" 1 2
    (Json.obj [("temp", Json.num 21)])
    (Json.arr [Json.obj [("temp", Json.num 18)]]) rfl rfl rfl).1

end WeatherTrack
